import Mathlib

/-!
Verification of the VisionSense.ai frame-sampling and multi-metric
extraction pipeline (`src/video_features/extractor.py`), shallowly
embedded in Lean 4.

The decode, histogram, optical-flow, OCR and detection primitives are
external capabilities; they are modelled as abstract functions bundled
in an `Analyzers` record.  Floating point quantities (distances,
magnitudes, ratios) are modelled as rationals.  The extraction loop
itself (stride-based sampling, the four per-frame analyzers, and the
final aggregation) is translated statement by statement from
`VideoFeatureExtractor.extract_features`.
-/

namespace VisionSense

/-- Mirrors the frozen dataclass `FarnebackParams` (extractor.py lines 13-21). -/
structure FarnebackParams where
  pyr_scale : ℚ := 1/2
  levels : ℤ := 3
  winsize : ℤ := 15
  iterations : ℤ := 3
  poly_n : ℤ := 5
  poly_sigma : ℚ := 12/10
  flags : ℤ := 0
deriving DecidableEq

/-- Mirrors the frozen dataclass `HistogramParams` (extractor.py lines 24-27). -/
structure HistogramParams where
  bins : ℕ × ℕ × ℕ := (8, 8, 8)
  ranges : ℤ × ℤ × ℤ × ℤ × ℤ × ℤ := (0, 180, 0, 256, 0, 256)
deriving DecidableEq

/-- Mirrors the frozen dataclass `FeatureExtractionConfig` (extractor.py
lines 30-41).  The Python constructor performs no validation, so every
field admits arbitrary values of its type; strides are machine integers
and in particular zero is constructible. -/
structure FeatureExtractionConfig where
  frame_stride : ℕ := 5
  resize_width : ℕ := 640
  shot_threshold : ℚ := 45/100
  text_sample_stride : ℕ := 10
  text_min_chars : ℕ := 8
  yolo_model : String := "yolov8n.pt"
  yolo_frame_stride : ℕ := 15
  farneback : FarnebackParams := {}
  hist : HistogramParams := {}
deriving DecidableEq

/-- The `boxes` object of a YOLO result: its `cls` tensor may be absent. -/
structure Boxes where
  cls : Option (List ℤ)
deriving DecidableEq

/-- A YOLO detection result as consumed by `_count_people_vs_objects`:
an optional class-id-to-label map (`names`) and an optional `boxes`
object (absence of the attribute and a `None` value are both `none`). -/
structure DetectResult where
  names : Option (List (ℤ × String))
  boxes : Option Boxes
deriving DecidableEq

/-- `names.get(int(cls_id), "")`: association-list lookup with default
empty label (extractor.py line 196). -/
def lookupLabel (names : List (ℤ × String)) (clsId : ℤ) : String :=
  match names.find? (fun p => p.1 == clsId) with
  | some p => p.2
  | none => ""

/-- The counting loop of `_count_people_vs_objects` (extractor.py lines
195-200): each class id increments exactly one of the two counters,
`person` when its looked-up label is "person", otherwise `other`. -/
def countClasses (names : List (ℤ × String)) (acc : ℕ × ℕ) : List ℤ → ℕ × ℕ
  | [] => acc
  | c :: rest =>
      countClasses names
        (if lookupLabel names c = "person" then (acc.1 + 1, acc.2) else (acc.1, acc.2 + 1))
        rest

/-- The external capabilities invoked by the extractor, as abstract
functions over abstract frame, histogram, grayscale and binary-image
types.  Each field corresponds to one primitive call site in
extractor.py. -/
structure Analyzers (F H G B : Type) where
  resizeToWidth : ℕ → F → F
  hsvHistogram : HistogramParams → F → H
  bhattacharyya : H → H → ℚ
  toGray : F → G
  flowMagnitudeMean : FarnebackParams → G → G → ℚ
  binarizeForOcr : F → B
  imageToData : B → List String
  detect : F → DetectResult
  detectorNames : Option (List (ℤ × String))

/-- `_count_people_vs_objects` (extractor.py lines 186-201): resolve the
label map (result names, else detector names, else empty), return
`(0, 0)` when there is no boxes object or no class array, otherwise
count person vs other over the class ids. -/
def countPeopleVsObjects {F H G B : Type} (A : Analyzers F H G B) (frame : F) : ℕ × ℕ :=
  let result := A.detect frame
  let names := (result.names.orElse (fun _ => A.detectorNames)).getD []
  match result.boxes with
  | none => (0, 0)
  | some b =>
      match b.cls with
      | none => (0, 0)
      | some classes => countClasses names (0, 0) classes

/-- `_contains_text` (extractor.py lines 171-184): binarize the frame,
run OCR, join the recognized fragments, strip whitespace, and compare
the character count with the threshold. -/
def containsText {F H G B : Type} (cfg : FeatureExtractionConfig)
    (A : Analyzers F H G B) (frame : F) : Bool :=
  let binary := A.binarizeForOcr frame
  let text := (String.join (A.imageToData binary)).trim
  decide (cfg.text_min_chars ≤ text.length)

/-- The mutable loop state of `extract_features` (extractor.py lines
61-72): running counters plus the previous-histogram and
previous-grayscale baselines. -/
structure LoopState (H G : Type) where
  processed_frames : ℕ := 0
  hard_cuts : ℕ := 0
  text_samples : ℕ := 0
  text_positives : ℕ := 0
  motion_samples : ℕ := 0
  motion_magnitude_sum : ℚ := 0
  person_total : ℕ := 0
  object_total : ℕ := 0
  prev_hist : Option H := none
  prev_gray : Option G := none
deriving DecidableEq

/-- The body of the sampling loop for one accepted frame (extractor.py
lines 84-109): resize, shot-cut comparison, optical-flow sample, text
sub-sample, detection sub-sample, and baseline replacement. -/
def processAccepted {F H G B : Type} (cfg : FeatureExtractionConfig)
    (A : Analyzers F H G B) (frame : F) (s : LoopState H G) : LoopState H G :=
  let processed := s.processed_frames + 1
  let small := A.resizeToWidth cfg.resize_width frame
  let curr_hist := A.hsvHistogram cfg.hist small
  let hard_cuts :=
    match s.prev_hist with
    | some ph =>
        if cfg.shot_threshold < A.bhattacharyya ph curr_hist then s.hard_cuts + 1
        else s.hard_cuts
    | none => s.hard_cuts
  let curr_gray := A.toGray small
  let motion :=
    match s.prev_gray with
    | some pg =>
        (s.motion_magnitude_sum + A.flowMagnitudeMean cfg.farneback pg curr_gray,
         s.motion_samples + 1)
    | none => (s.motion_magnitude_sum, s.motion_samples)
  let text :=
    if processed % cfg.text_sample_stride = 0 then
      (s.text_samples + 1,
       if containsText cfg A small then s.text_positives + 1 else s.text_positives)
    else (s.text_samples, s.text_positives)
  let detections :=
    if processed % cfg.yolo_frame_stride = 0 then
      let po := countPeopleVsObjects A small
      (s.person_total + po.1, s.object_total + po.2)
    else (s.person_total, s.object_total)
  { processed_frames := processed
    hard_cuts := hard_cuts
    text_samples := text.1
    text_positives := text.2
    motion_samples := motion.2
    motion_magnitude_sum := motion.1
    person_total := detections.1
    object_total := detections.2
    prev_hist := some curr_hist
    prev_gray := some curr_gray }

/-- One iteration of the while-loop at absolute frame index `i`
(extractor.py lines 80-82): a frame is accepted iff
`i % frame_stride == 0`, otherwise the state is unchanged. -/
def stepFrame {F H G B : Type} (cfg : FeatureExtractionConfig)
    (A : Analyzers F H G B) (i : ℕ) (frame : F) (s : LoopState H G) : LoopState H G :=
  if i % cfg.frame_stride ≠ 0 then s else processAccepted cfg A frame s

/-- The sampling loop over the decoded frame sequence, with `i` the
absolute index of the next frame (the Python counter starts at -1 and is
incremented before each stride test, so the first decoded frame has
index 0). -/
def runLoop {F H G B : Type} (cfg : FeatureExtractionConfig)
    (A : Analyzers F H G B) : ℕ → List F → LoopState H G → LoopState H G
  | _, [], s => s
  | i, f :: rest, s => runLoop cfg A (i + 1) rest (stepFrame cfg A i f s)

/-- Per-video metadata read from the decode handle before the loop
(extractor.py lines 57-59): resolved path, frame rate and frame-count
hint. -/
structure VideoMeta where
  resolvedPath : String
  fps : ℚ
  total_frames : ℕ
deriving DecidableEq

/-- The report dictionary returned by `extract_features` (extractor.py
lines 117-128). -/
structure Report where
  video_path : String
  duration_seconds : Option ℚ
  frames_total : ℕ
  frames_processed : ℕ
  hard_cuts : ℕ
  avg_motion_magnitude : ℚ
  text_present_ratio : ℚ
  people_detections : ℕ
  object_detections : ℕ
  person_to_object_ratio : Option ℚ
deriving DecidableEq

/-- The aggregation step (extractor.py lines 113-128): zero-sample
averages default to 0, and the person-to-object ratio is absent when the
object count is zero. -/
def buildReport {H G : Type} (meta : VideoMeta) (s : LoopState H G) : Report :=
  { video_path := meta.resolvedPath
    duration_seconds :=
      if 0 < meta.fps then some ((meta.total_frames : ℚ) / meta.fps) else none
    frames_total := meta.total_frames
    frames_processed := s.processed_frames
    hard_cuts := s.hard_cuts
    avg_motion_magnitude :=
      if s.motion_samples ≠ 0 then s.motion_magnitude_sum / (s.motion_samples : ℚ) else 0
    text_present_ratio :=
      if s.text_samples ≠ 0 then (s.text_positives : ℚ) / (s.text_samples : ℚ) else 0
    people_detections := s.person_total
    object_detections := s.object_total
    person_to_object_ratio :=
      if s.object_total ≠ 0 then some ((s.person_total : ℚ) / (s.object_total : ℚ))
      else none }

/-- `extract_features` on a successfully opened video whose decoder
yields `frames` in order: run the sampling loop from index 0 and an
all-zero state, then aggregate. -/
def extract_features {F H G B : Type} (cfg : FeatureExtractionConfig)
    (A : Analyzers F H G B) (meta : VideoMeta) (frames : List F) : Report :=
  buildReport meta (runLoop cfg A 0 frames {})

/-! ### Fallible execution model

The error-handling claims require the exceptional control flow of
`extract_features`: the existence check, the open check, the `try`
around the loop whose `finally` releases the decode handle, and the
propagation of analyzer faults.  Capabilities that may raise are
modelled as `Except Unit` valued functions and the decoder stream as a
list of fallible reads. -/

/-- The Python exception classes visible at the boundary of
`extract_features`: `FileNotFoundError` (line 51), `ValueError`
(line 55), and any fault raised by a decode or analyzer call inside the
loop. -/
inductive PyError
  | fileNotFound
  | valueError
  | analyzerFault
deriving DecidableEq

/-- Fallible capabilities: every primitive call inside the loop may
raise. -/
structure AnalyzersE (F H G B : Type) where
  resizeToWidth : ℕ → F → Except Unit F
  hsvHistogram : HistogramParams → F → Except Unit H
  bhattacharyya : H → H → Except Unit ℚ
  toGray : F → Except Unit G
  flowMagnitudeMean : FarnebackParams → G → G → Except Unit ℚ
  binarizeForOcr : F → Except Unit B
  imageToData : B → Except Unit (List String)
  detect : F → Except Unit DetectResult
  detectorNames : Option (List (ℤ × String))

/-- Fallible `_count_people_vs_objects`: the detection call may raise. -/
def countPeopleVsObjectsE {F H G B : Type} (A : AnalyzersE F H G B) (frame : F) :
    Except Unit (ℕ × ℕ) := do
  let result ← A.detect frame
  let names := (result.names.orElse (fun _ => A.detectorNames)).getD []
  match result.boxes with
  | none => pure (0, 0)
  | some b =>
      match b.cls with
      | none => pure (0, 0)
      | some classes => pure (countClasses names (0, 0) classes)

/-- Fallible `_contains_text`: binarization and OCR may raise. -/
def containsTextE {F H G B : Type} (cfg : FeatureExtractionConfig)
    (A : AnalyzersE F H G B) (frame : F) : Except Unit Bool := do
  let binary ← A.binarizeForOcr frame
  let fragments ← A.imageToData binary
  pure (decide (cfg.text_min_chars ≤ (String.join fragments).trim.length))

/-- Fallible loop body for one accepted frame: the first analyzer call
that raises aborts the iteration and propagates. -/
def processAcceptedE {F H G B : Type} (cfg : FeatureExtractionConfig)
    (A : AnalyzersE F H G B) (frame : F) (s : LoopState H G) :
    Except Unit (LoopState H G) := do
  let processed := s.processed_frames + 1
  let small ← A.resizeToWidth cfg.resize_width frame
  let curr_hist ← A.hsvHistogram cfg.hist small
  let hard_cuts ←
    match s.prev_hist with
    | some ph => do
        let d ← A.bhattacharyya ph curr_hist
        pure (if cfg.shot_threshold < d then s.hard_cuts + 1 else s.hard_cuts)
    | none => pure s.hard_cuts
  let curr_gray ← A.toGray small
  let motion ←
    match s.prev_gray with
    | some pg => do
        let m ← A.flowMagnitudeMean cfg.farneback pg curr_gray
        pure (s.motion_magnitude_sum + m, s.motion_samples + 1)
    | none => pure (s.motion_magnitude_sum, s.motion_samples)
  let text ←
    if processed % cfg.text_sample_stride = 0 then do
      let pos ← containsTextE cfg A small
      pure (s.text_samples + 1, if pos then s.text_positives + 1 else s.text_positives)
    else pure (s.text_samples, s.text_positives)
  let detections ←
    if processed % cfg.yolo_frame_stride = 0 then do
      let po ← countPeopleVsObjectsE A small
      pure (s.person_total + po.1, s.object_total + po.2)
    else pure (s.person_total, s.object_total)
  pure
    { processed_frames := processed
      hard_cuts := hard_cuts
      text_samples := text.1
      text_positives := text.2
      motion_samples := motion.2
      motion_magnitude_sum := motion.1
      person_total := detections.1
      object_total := detections.2
      prev_hist := some curr_hist
      prev_gray := some curr_gray }

/-- Fallible loop iteration at absolute index `i`. -/
def stepFrameE {F H G B : Type} (cfg : FeatureExtractionConfig)
    (A : AnalyzersE F H G B) (i : ℕ) (frame : F) (s : LoopState H G) :
    Except Unit (LoopState H G) :=
  if i % cfg.frame_stride ≠ 0 then pure s else processAcceptedE cfg A frame s

/-- Fallible sampling loop: each element of `frames` is a fallible
`cap.read()` result; end of the list is end-of-stream, and a raising
read or analyzer call aborts the remainder. -/
def runLoopE {F H G B : Type} (cfg : FeatureExtractionConfig)
    (A : AnalyzersE F H G B) :
    ℕ → List (Except Unit F) → LoopState H G → Except Unit (LoopState H G)
  | _, [], s => pure s
  | i, r :: rest, s => do
      let f ← r
      let s2 ← stepFrameE cfg A i f s
      runLoopE cfg A (i + 1) rest s2

/-- One invocation environment: whether the path exists, whether the
container opens, the metadata the handle reports, and the decode
stream. -/
structure VideoEnv (F : Type) where
  pathExists : Bool
  canOpen : Bool
  resolvedPath : String
  fps : ℚ
  total_frames : ℕ
  frames : List (Except Unit F)

/-- The observable outcome of one `extract_features` call: its result
or exception, whether the decode handle was successfully opened, and
whether `cap.release()` ran. -/
structure RunOutcome where
  result : Except PyError Report
  opened : Bool
  released : Bool

/-- `extract_features` with its full exceptional control flow
(extractor.py lines 48-128): missing path raises `FileNotFoundError`
before any handle is opened; an unopenable container raises
`ValueError`; otherwise the loop runs inside `try`/`finally`, so the
handle is released both on normal end-of-stream and when a decode or
analyzer fault propagates. -/
def extractRun {F H G B : Type} (cfg : FeatureExtractionConfig)
    (A : AnalyzersE F H G B) (env : VideoEnv F) : RunOutcome :=
  if ¬env.pathExists then
    { result := Except.error PyError.fileNotFound, opened := false, released := false }
  else if ¬env.canOpen then
    { result := Except.error PyError.valueError, opened := false, released := false }
  else
    match runLoopE cfg A 0 env.frames ({} : LoopState H G) with
    | Except.ok s =>
        { result := Except.ok (buildReport ⟨env.resolvedPath, env.fps, env.total_frames⟩ s)
          opened := true, released := true }
    | Except.error _ =>
        { result := Except.error PyError.analyzerFault, opened := true, released := true }

/-- The collaborator boundary (`app.py` lines 131-147): the `/extract`
endpoint maps `FileNotFoundError` to a 400 client error and wraps every
other exception generically as a 500 processing failure. -/
def extractStatus (r : Except PyError Report) : ℕ :=
  match r with
  | Except.ok _ => 200
  | Except.error PyError.fileNotFound => 400
  | Except.error _ => 500

/-! ### Specification-side definitions and proof fixtures -/

/-- The number of absolute indices `j` with `i ≤ j < i + n` accepted by
the stride policy `j % stride == 0`. -/
def countAccepted (stride : ℕ) : ℕ → ℕ → ℕ
  | _, 0 => 0
  | i, n + 1 => (if i % stride = 0 then 1 else 0) + countAccepted stride (i + 1) n

/-- The loop invariant tying the analyzer baselines to the counters:
the histogram baseline is absent exactly until the first accepted frame
and each comparison adds at most one cut; the grayscale baseline is
absent exactly until the first accepted frame and every later accepted
frame adds exactly one motion sample; the text sub-sample count is the
number of accepted-frame ordinals divisible by the text stride; and the
detection totals are untouched before the detection stride is first
reached. -/
def StateInv {H G : Type} (cfg : FeatureExtractionConfig) (s : LoopState H G) : Prop :=
  ((s.prev_hist = none ∧ s.hard_cuts = 0 ∧ s.processed_frames = 0) ∨
     (s.prev_hist ≠ none ∧ s.hard_cuts + 1 ≤ s.processed_frames))
  ∧ ((s.prev_gray = none ∧ s.motion_samples = 0 ∧ s.processed_frames = 0) ∨
     (s.prev_gray ≠ none ∧ s.motion_samples + 1 = s.processed_frames))
  ∧ s.text_samples = s.processed_frames / cfg.text_sample_stride
  ∧ (s.processed_frames < cfg.yolo_frame_stride →
       s.person_total = 0 ∧ s.object_total = 0)

/-- Concrete pure capabilities over trivial frame types, used to
instantiate the universally quantified theorems at checkable inputs. -/
def unitAnalyzers : Analyzers Unit Unit Unit Unit :=
  { resizeToWidth := fun _ f => f
    hsvHistogram := fun _ _ => ()
    bhattacharyya := fun _ _ => 1
    toGray := fun _ => ()
    flowMagnitudeMean := fun _ _ _ => 2
    binarizeForOcr := fun _ => ()
    imageToData := fun _ => ["sample", "text!!!!"]
    detect := fun _ =>
      { names := some [(0, "person"), (2, "car")]
        boxes := some { cls := some [0, 2, 7] } }
    detectorNames := none }

/-- A small concrete configuration with strides 2 / 2 / 3. -/
def cfgW : FeatureExtractionConfig :=
  { frame_stride := 2, text_sample_stride := 2, yolo_frame_stride := 3 }

/-- Concrete video metadata for witness runs. -/
def metaW : VideoMeta :=
  { resolvedPath := "/videos/clip.mp4", fps := 25, total_frames := 5 }

/-- A five-frame decoded sequence over the trivial frame type. -/
def framesW : List Unit := [(), (), (), (), ()]

/-- A concrete configuration whose text and detection strides exceed the
number of accepted frames of the five-frame fixture. -/
def cfgW2 : FeatureExtractionConfig :=
  { frame_stride := 1, text_sample_stride := 9, yolo_frame_stride := 7 }

/-- A constructible configuration with a zero frame stride: the Python
dataclass constructor performs no validation, so this value exists. -/
def zeroStrideConfig : FeatureExtractionConfig := { frame_stride := 0 }

/-- Concrete fallible capabilities that never raise. -/
def unitAnalyzersE : AnalyzersE Unit Unit Unit Unit :=
  { resizeToWidth := fun _ f => Except.ok f
    hsvHistogram := fun _ _ => Except.ok ()
    bhattacharyya := fun _ _ => Except.ok 1
    toGray := fun _ => Except.ok ()
    flowMagnitudeMean := fun _ _ _ => Except.ok 2
    binarizeForOcr := fun _ => Except.ok ()
    imageToData := fun _ => Except.ok ["sample", "text!!!!"]
    detect := fun _ =>
      Except.ok
        { names := some [(0, "person"), (2, "car")]
          boxes := some { cls := some [0, 2, 7] } }
    detectorNames := none }

/-- An environment whose path exists, whose container opens, and whose
stream decodes two frames then ends normally. -/
def envOkW : VideoEnv Unit :=
  { pathExists := true, canOpen := true, resolvedPath := "/videos/clip.mp4"
    fps := 30, total_frames := 4, frames := [Except.ok (), Except.ok ()] }

/-- An environment whose input path does not exist. -/
def envMissingW : VideoEnv Unit :=
  { pathExists := false, canOpen := false, resolvedPath := "/videos/nope.mp4"
    fps := 0, total_frames := 0, frames := [] }

/-- An environment whose path exists but whose container cannot be
opened. -/
def envUnreadableW : VideoEnv Unit :=
  { pathExists := true, canOpen := false, resolvedPath := "/videos/bad.mp4"
    fps := 0, total_frames := 0, frames := [] }

/-- An environment whose stream raises mid-stream on the second read. -/
def envFaultW : VideoEnv Unit :=
  { pathExists := true, canOpen := true, resolvedPath := "/videos/fault.mp4"
    fps := 30, total_frames := 4, frames := [Except.ok (), Except.error ()] }

/-! ### Helper lemmas about the sampling loop -/

section Helpers

variable {F H G B : Type} (cfg : FeatureExtractionConfig) (A : Analyzers F H G B)

theorem processAccepted_processed (f : F) (s : LoopState H G) :
    (processAccepted cfg A f s).processed_frames = s.processed_frames + 1 := rfl

theorem processAccepted_prev_hist (f : F) (s : LoopState H G) :
    (processAccepted cfg A f s).prev_hist ≠ none := by
  simp [processAccepted]

theorem processAccepted_prev_gray (f : F) (s : LoopState H G) :
    (processAccepted cfg A f s).prev_gray ≠ none := by
  simp [processAccepted]

theorem processAccepted_hard_cuts_le (f : F) (s : LoopState H G) :
    (processAccepted cfg A f s).hard_cuts ≤ s.hard_cuts + 1 := by
  rcases hh : s.prev_hist with _ | ph
  · simp [processAccepted, hh]
  · by_cases hd :
        cfg.shot_threshold <
          A.bhattacharyya ph (A.hsvHistogram cfg.hist (A.resizeToWidth cfg.resize_width f))
    · simp [processAccepted, hh, hd]
    · simp [processAccepted, hh, hd]

theorem processAccepted_hard_cuts_none (f : F) (s : LoopState H G)
    (h : s.prev_hist = none) :
    (processAccepted cfg A f s).hard_cuts = s.hard_cuts := by
  simp [processAccepted, h]

theorem processAccepted_motion_none (f : F) (s : LoopState H G)
    (h : s.prev_gray = none) :
    (processAccepted cfg A f s).motion_samples = s.motion_samples := by
  simp [processAccepted, h]

theorem processAccepted_motion_some (f : F) (s : LoopState H G)
    (h : s.prev_gray ≠ none) :
    (processAccepted cfg A f s).motion_samples = s.motion_samples + 1 := by
  rcases hg : s.prev_gray with _ | g
  · exact absurd hg h
  · simp [processAccepted, hg]

theorem processAccepted_text_samples (f : F) (s : LoopState H G) :
    (processAccepted cfg A f s).text_samples =
      s.text_samples +
        (if (s.processed_frames + 1) % cfg.text_sample_stride = 0 then 1 else 0) := by
  by_cases h : (s.processed_frames + 1) % cfg.text_sample_stride = 0
  · simp [processAccepted, h]
  · simp [processAccepted, h]

theorem processAccepted_totals_not_fired (f : F) (s : LoopState H G)
    (h : (s.processed_frames + 1) % cfg.yolo_frame_stride ≠ 0) :
    (processAccepted cfg A f s).person_total = s.person_total ∧
      (processAccepted cfg A f s).object_total = s.object_total := by
  constructor <;> simp [processAccepted, h]

theorem stepFrame_processed (i : ℕ) (f : F) (s : LoopState H G) :
    (stepFrame cfg A i f s).processed_frames =
      s.processed_frames + (if i % cfg.frame_stride = 0 then 1 else 0) := by
  by_cases h : i % cfg.frame_stride = 0
  · simp [stepFrame, h, processAccepted_processed]
  · simp [stepFrame, h]

theorem runLoop_processed (fs : List F) :
    ∀ (i : ℕ) (s : LoopState H G),
      (runLoop cfg A i fs s).processed_frames =
        s.processed_frames + countAccepted cfg.frame_stride i fs.length := by
  induction fs with
  | nil => intro i s; simp [runLoop, countAccepted]
  | cons f rest ih =>
      intro i s
      simp only [runLoop, List.length_cons, countAccepted, ih, stepFrame_processed]
      omega

end Helpers

/-! ### Arithmetic facts about stride counting -/

theorem ceil_div_step (s : ℕ) (hs : 0 < s) (i : ℕ) :
    (i + s) / s = (i + s - 1) / s + (if i % s = 0 then 1 else 0) := by
  obtain ⟨q, r, hr, rfl⟩ : ∃ q r, r < s ∧ i = s * q + r :=
    ⟨i / s, i % s, Nat.mod_lt i hs, (Nat.div_add_mod i s).symm⟩
  have hmod : (s * q + r) % s = r := by
    rw [Nat.mul_add_mod, Nat.mod_eq_of_lt hr]
  rcases Nat.eq_zero_or_pos r with h0 | hpos
  · subst h0
    have h1 : s * q + 0 + s = s * (q + 1) + 0 := by ring
    have h2 : s * q + 0 + s - 1 = s * q + (s - 1) := by omega
    rw [h2, h1, Nat.mul_add_div hs, Nat.mul_add_div hs,
        Nat.div_eq_of_lt (by omega : s - 1 < s), Nat.div_eq_of_lt hs]
    simp [hmod]
  · have h1 : s * q + r + s = s * (q + 1) + r := by ring
    have h2 : s * q + r + s - 1 = s * (q + 1) + (r - 1) := by omega
    rw [h2, h1, Nat.mul_add_div hs, Nat.mul_add_div hs,
        Nat.div_eq_of_lt (by omega : r - 1 < s), Nat.div_eq_of_lt hr]
    have : ¬(s * q + r) % s = 0 := by omega
    simp [this]

theorem countAccepted_add (s : ℕ) (hs : 0 < s) (n : ℕ) :
    ∀ i : ℕ, countAccepted s i n + (i + s - 1) / s = (i + n + s - 1) / s := by
  induction n with
  | zero => intro i; simp [countAccepted]
  | succ n ih =>
      intro i
      have hone : i + 1 + s - 1 = i + s := by omega
      have htwo : i + 1 + n + s - 1 = i + n + s := by omega
      have hih := ih (i + 1)
      rw [hone, htwo] at hih
      have hstep := ceil_div_step s hs i
      have hgoal : i + (n + 1) + s - 1 = i + n + s := by omega
      simp only [countAccepted, hgoal]
      omega

theorem countAccepted_ceil (s : ℕ) (hs : 0 < s) (n : ℕ) :
    countAccepted s 0 n = (n + s - 1) / s := by
  have h := countAccepted_add s hs n 0
  have hz : (0 + s - 1) / s = 0 := Nat.div_eq_of_lt (by omega)
  rw [hz, Nat.add_zero, Nat.zero_add] at h
  exact h

/-! ### The loop invariant is established and preserved -/

section Invariant

variable {F H G B : Type} (cfg : FeatureExtractionConfig) (A : Analyzers F H G B)

theorem stateInv_init : StateInv cfg ({} : LoopState H G) := by
  refine ⟨Or.inl ⟨rfl, rfl, rfl⟩, Or.inl ⟨rfl, rfl, rfl⟩, ?_, fun _ => ⟨rfl, rfl⟩⟩
  show (0 : ℕ) = 0 / cfg.text_sample_stride
  rw [Nat.zero_div]

theorem processAccepted_inv (f : F) (s : LoopState H G) (hInv : StateInv cfg s) :
    StateInv cfg (processAccepted cfg A f s) := by
  obtain ⟨hHist, hGray, hText, hYolo⟩ := hInv
  refine ⟨?_, ?_, ?_, ?_⟩
  · rcases hHist with ⟨hn, hc0, hp0⟩ | ⟨_, hle⟩
    · refine Or.inr ⟨processAccepted_prev_hist cfg A f s, ?_⟩
      rw [processAccepted_hard_cuts_none cfg A f s hn, processAccepted_processed, hc0, hp0]
    · refine Or.inr ⟨processAccepted_prev_hist cfg A f s, ?_⟩
      have hle2 := processAccepted_hard_cuts_le cfg A f s
      rw [processAccepted_processed]
      omega
  · rcases hGray with ⟨hn, hm0, hp0⟩ | ⟨hsome, heq⟩
    · refine Or.inr ⟨processAccepted_prev_gray cfg A f s, ?_⟩
      rw [processAccepted_motion_none cfg A f s hn, processAccepted_processed, hm0, hp0]
    · refine Or.inr ⟨processAccepted_prev_gray cfg A f s, ?_⟩
      rw [processAccepted_motion_some cfg A f s hsome, processAccepted_processed]
      omega
  · rw [processAccepted_text_samples, processAccepted_processed, hText, Nat.succ_div]
    by_cases hd : cfg.text_sample_stride ∣ s.processed_frames + 1
    · rw [if_pos (Nat.dvd_iff_mod_eq_zero.mp hd), if_pos hd]
    · rw [if_neg (fun hm => hd (Nat.dvd_iff_mod_eq_zero.mpr hm)), if_neg hd]
  · intro hlt
    rw [processAccepted_processed] at hlt
    obtain ⟨hp0, ho0⟩ := hYolo (by omega)
    have hfire : (s.processed_frames + 1) % cfg.yolo_frame_stride ≠ 0 := by
      rw [Nat.mod_eq_of_lt hlt]
      omega
    obtain ⟨h1, h2⟩ := processAccepted_totals_not_fired cfg A f s hfire
    rw [h1, h2]
    exact ⟨hp0, ho0⟩

theorem stepFrame_inv (i : ℕ) (f : F) (s : LoopState H G) (hInv : StateInv cfg s) :
    StateInv cfg (stepFrame cfg A i f s) := by
  by_cases h : i % cfg.frame_stride = 0
  · simpa [stepFrame, h] using processAccepted_inv cfg A f s hInv
  · simpa [stepFrame, h] using hInv

theorem runLoop_inv (fs : List F) :
    ∀ (i : ℕ) (s : LoopState H G), StateInv cfg s → StateInv cfg (runLoop cfg A i fs s) := by
  induction fs with
  | nil => intro i s h; simpa [runLoop] using h
  | cons f rest ih =>
      intro i s h
      exact ih (i + 1) (stepFrame cfg A i f s) (stepFrame_inv cfg A i f s h)

end Invariant

/-! ### Counting detections -/

theorem countClasses_sum (names : List (ℤ × String)) (classes : List ℤ) :
    ∀ acc : ℕ × ℕ,
      (countClasses names acc classes).1 + (countClasses names acc classes).2 =
        acc.1 + acc.2 + classes.length := by
  induction classes with
  | nil => intro acc; simp [countClasses]
  | cons c rest ih =>
      intro acc
      by_cases h : lookupLabel names c = "person"
      · simp only [countClasses, h, if_pos, List.length_cons, ih]
        omega
      · simp only [countClasses, h, if_neg, if_false, List.length_cons, ih]
        omega

/-! ### Claim theorems -/

/-- C1: for every video whose decoder yields the frames in order,
`extract_features` accepts exactly the frames whose absolute index `i`
satisfies `i mod frame_stride == 0`, and reports `frames_processed`
equal to the count of accepted frames, which is the ceiling of the
frame count divided by the stride. -/
theorem frames_processed_ceil_spec {F H G B : Type} (cfg : FeatureExtractionConfig)
    (A : Analyzers F H G B) (meta : VideoMeta) (frames : List F)
    (h : 0 < cfg.frame_stride) :
    (extract_features cfg A meta frames).frames_processed
        = countAccepted cfg.frame_stride 0 frames.length
      ∧ (extract_features cfg A meta frames).frames_processed
        = (frames.length + cfg.frame_stride - 1) / cfg.frame_stride := by
  have key : (extract_features cfg A meta frames).frames_processed
      = countAccepted cfg.frame_stride 0 frames.length := by
    show (runLoop cfg A 0 frames ({} : LoopState H G)).processed_frames = _
    rw [runLoop_processed]
    simp
  exact ⟨key, key.trans (countAccepted_ceil cfg.frame_stride h frames.length)⟩

theorem frames_processed_ceil_spec_witness :
    0 < cfgW.frame_stride ∧
      (extract_features cfgW unitAnalyzers metaW framesW).frames_processed
        = (framesW.length + cfgW.frame_stride - 1) / cfgW.frame_stride :=
  ⟨by decide, (frames_processed_ceil_spec cfgW unitAnalyzers metaW framesW (by decide)).2⟩

/-- C5: the reported person-to-object ratio is present iff the object
count is positive, in which case it is exactly the quotient of the
people count by the object count; with a zero object count the field is
`none` and no division happens. -/
theorem person_object_ratio_spec {F H G B : Type} (cfg : FeatureExtractionConfig)
    (A : Analyzers F H G B) (meta : VideoMeta) (frames : List F) :
    ((extract_features cfg A meta frames).person_to_object_ratio ≠ none
        ↔ (extract_features cfg A meta frames).object_detections ≠ 0)
      ∧ ((extract_features cfg A meta frames).object_detections ≠ 0 →
          (extract_features cfg A meta frames).person_to_object_ratio
            = some (((extract_features cfg A meta frames).people_detections : ℚ)
                / ((extract_features cfg A meta frames).object_detections : ℚ)))
      ∧ ((extract_features cfg A meta frames).object_detections = 0 →
          (extract_features cfg A meta frames).person_to_object_ratio = none) := by
  unfold extract_features buildReport
  by_cases h : (runLoop cfg A 0 frames ({} : LoopState H G)).object_total = 0 <;>
    simp [h]

theorem person_object_ratio_spec_witness :
    (extract_features cfgW unitAnalyzers metaW framesW).object_detections ≠ 0 ∧
      (extract_features cfgW unitAnalyzers metaW framesW).person_to_object_ratio
        = some (((extract_features cfgW unitAnalyzers metaW framesW).people_detections : ℚ)
            / ((extract_features cfgW unitAnalyzers metaW framesW).object_detections : ℚ)) :=
  ⟨by decide, (person_object_ratio_spec cfgW unitAnalyzers metaW framesW).2.1 (by decide)⟩

/-- C7: each detection increments exactly one of the two counters, so
persons plus others equals the number of class entries; a missing boxes
object or a missing class array yields `(0, 0)` without error. -/
theorem detection_count_spec {F H G B : Type} (A : Analyzers F H G B) (f : F) :
    (∀ (b : Boxes) (classes : List ℤ), (A.detect f).boxes = some b → b.cls = some classes →
        (countPeopleVsObjects A f).1 + (countPeopleVsObjects A f).2 = classes.length)
      ∧ ((A.detect f).boxes = none → countPeopleVsObjects A f = (0, 0))
      ∧ (∀ b : Boxes, (A.detect f).boxes = some b → b.cls = none →
          countPeopleVsObjects A f = (0, 0)) := by
  refine ⟨?_, ?_, ?_⟩
  · intro b classes hb hc
    simp [countPeopleVsObjects, hb, hc, countClasses_sum]
  · intro hb
    simp [countPeopleVsObjects, hb]
  · intro b hb hc
    simp [countPeopleVsObjects, hb, hc]

theorem detection_count_spec_witness :
    (unitAnalyzers.detect ()).boxes = some { cls := some [(0 : ℤ), 2, 7] } ∧
      (countPeopleVsObjects unitAnalyzers ()).1 + (countPeopleVsObjects unitAnalyzers ()).2
        = 3 :=
  ⟨by decide,
    (detection_count_spec unitAnalyzers ()).1 { cls := some [(0 : ℤ), 2, 7] }
      [(0 : ℤ), 2, 7] (by decide) rfl⟩

/-- C8: `extract_features` is deterministic: two runs on the same
config, capabilities, metadata and decoded frame sequence produce
identical reports in every field. -/
theorem extract_deterministic {F H G B : Type} (cfg : FeatureExtractionConfig)
    (A : Analyzers F H G B) (meta : VideoMeta) (frames : List F) (r1 r2 : Report)
    (h1 : r1 = extract_features cfg A meta frames)
    (h2 : r2 = extract_features cfg A meta frames) : r1 = r2 :=
  h1.trans h2.symm

theorem extract_deterministic_witness :
    extract_features cfgW unitAnalyzers metaW framesW
      = extract_features cfgW unitAnalyzers metaW framesW :=
  extract_deterministic cfgW unitAnalyzers metaW framesW _ _ rfl rfl

/-- C4 fails as stated: on a video with zero accepted frames the report
has `hard_cuts = 0` and `frames_processed = 0`, and `0 ≤ 0 - 1` is false
over the integers. -/
theorem hard_cuts_bound_counterexample :
    ¬ (((extract_features cfgW unitAnalyzers metaW ([] : List Unit)).hard_cuts : ℤ)
        ≤ ((extract_features cfgW unitAnalyzers metaW ([] : List Unit)).frames_processed : ℤ)
            - 1) := by
  decide

/-- C4 (amended): whenever at least one frame is accepted,
`hard_cuts ≤ frames_processed - 1`, because the first accepted frame
contributes no comparison and each later accepted frame contributes at
most one cut; with zero accepted frames `hard_cuts = 0`. -/
theorem hard_cuts_bound_amended {F H G B : Type} (cfg : FeatureExtractionConfig)
    (A : Analyzers F H G B) (meta : VideoMeta) (frames : List F) :
    (0 < (extract_features cfg A meta frames).frames_processed →
        ((extract_features cfg A meta frames).hard_cuts : ℤ)
          ≤ ((extract_features cfg A meta frames).frames_processed : ℤ) - 1)
      ∧ ((extract_features cfg A meta frames).frames_processed = 0 →
          (extract_features cfg A meta frames).hard_cuts = 0) := by
  obtain ⟨hHist, -, -, -⟩ :=
    runLoop_inv cfg A frames 0 ({} : LoopState H G) (stateInv_init cfg)
  constructor
  · intro hp
    have hp' : 0 < (runLoop cfg A 0 frames ({} : LoopState H G)).processed_frames := hp
    show ((runLoop cfg A 0 frames ({} : LoopState H G)).hard_cuts : ℤ)
        ≤ ((runLoop cfg A 0 frames ({} : LoopState H G)).processed_frames : ℤ) - 1
    rcases hHist with ⟨-, -, hp0⟩ | ⟨-, hle⟩
    · omega
    · omega
  · intro hp
    have hp' : (runLoop cfg A 0 frames ({} : LoopState H G)).processed_frames = 0 := hp
    show (runLoop cfg A 0 frames ({} : LoopState H G)).hard_cuts = 0
    rcases hHist with ⟨-, hc0, -⟩ | ⟨-, hle⟩
    · exact hc0
    · omega

theorem hard_cuts_bound_amended_witness :
    0 < (extract_features cfgW unitAnalyzers metaW framesW).frames_processed ∧
      ((extract_features cfgW unitAnalyzers metaW framesW).hard_cuts : ℤ)
        ≤ ((extract_features cfgW unitAnalyzers metaW framesW).frames_processed : ℤ) - 1 :=
  ⟨by decide, (hard_cuts_bound_amended cfgW unitAnalyzers metaW framesW).1 (by decide)⟩

/-- C6: the first accepted frame only establishes the grayscale
baseline, each later accepted frame contributes exactly one motion
sample, and the reported average is the sum over the sample count when
samples exist and 0 otherwise. -/
theorem motion_average_spec {F H G B : Type} (cfg : FeatureExtractionConfig)
    (A : Analyzers F H G B) (meta : VideoMeta) (frames : List F) :
    (0 < (extract_features cfg A meta frames).frames_processed →
        (runLoop cfg A 0 frames ({} : LoopState H G)).motion_samples + 1
          = (extract_features cfg A meta frames).frames_processed)
      ∧ (0 < (runLoop cfg A 0 frames ({} : LoopState H G)).motion_samples →
          (extract_features cfg A meta frames).avg_motion_magnitude
            = (runLoop cfg A 0 frames ({} : LoopState H G)).motion_magnitude_sum
                / ((runLoop cfg A 0 frames ({} : LoopState H G)).motion_samples : ℚ))
      ∧ ((runLoop cfg A 0 frames ({} : LoopState H G)).motion_samples = 0 →
          (extract_features cfg A meta frames).avg_motion_magnitude = 0) := by
  obtain ⟨-, hGray, -, -⟩ :=
    runLoop_inv cfg A frames 0 ({} : LoopState H G) (stateInv_init cfg)
  refine ⟨?_, ?_, ?_⟩
  · intro hp
    have hp' : 0 < (runLoop cfg A 0 frames ({} : LoopState H G)).processed_frames := hp
    show (runLoop cfg A 0 frames ({} : LoopState H G)).motion_samples + 1
        = (runLoop cfg A 0 frames ({} : LoopState H G)).processed_frames
    rcases hGray with ⟨-, -, hp0⟩ | ⟨-, heq⟩
    · omega
    · exact heq
  · intro hm
    show (if (runLoop cfg A 0 frames ({} : LoopState H G)).motion_samples ≠ 0
        then (runLoop cfg A 0 frames ({} : LoopState H G)).motion_magnitude_sum
            / ((runLoop cfg A 0 frames ({} : LoopState H G)).motion_samples : ℚ)
        else 0)
        = (runLoop cfg A 0 frames ({} : LoopState H G)).motion_magnitude_sum
            / ((runLoop cfg A 0 frames ({} : LoopState H G)).motion_samples : ℚ)
    rw [if_pos (by omega)]
  · intro hm
    show (if (runLoop cfg A 0 frames ({} : LoopState H G)).motion_samples ≠ 0
        then (runLoop cfg A 0 frames ({} : LoopState H G)).motion_magnitude_sum
            / ((runLoop cfg A 0 frames ({} : LoopState H G)).motion_samples : ℚ)
        else 0) = 0
    rw [if_neg (fun hne => hne hm)]

theorem motion_average_spec_witness :
    0 < (runLoop cfgW unitAnalyzers 0 framesW ({} : LoopState Unit Unit)).motion_samples ∧
      (extract_features cfgW unitAnalyzers metaW framesW).avg_motion_magnitude
        = (runLoop cfgW unitAnalyzers 0 framesW ({} : LoopState Unit Unit)).motion_magnitude_sum
            / ((runLoop cfgW unitAnalyzers 0 framesW
                ({} : LoopState Unit Unit)).motion_samples : ℚ) :=
  ⟨by decide, (motion_average_spec cfgW unitAnalyzers metaW framesW).2.1 (by decide)⟩

/-- C10: text and detection sub-sampling compare the processed counter,
which starts at 1, against their strides, so the text sample count is
the integer quotient of the processed count by the text stride; with
fewer accepted frames than the text stride no text sample is taken and
the text ratio is 0, and with fewer accepted frames than the detection
stride both detection totals are 0. -/
theorem sub_stride_warmup_spec {F H G B : Type} (cfg : FeatureExtractionConfig)
    (A : Analyzers F H G B) (meta : VideoMeta) (frames : List F)
    (ht : 0 < cfg.text_sample_stride) (hy : 0 < cfg.yolo_frame_stride) :
    ((runLoop cfg A 0 frames ({} : LoopState H G)).text_samples
        = (extract_features cfg A meta frames).frames_processed / cfg.text_sample_stride)
      ∧ ((extract_features cfg A meta frames).frames_processed < cfg.text_sample_stride →
          (runLoop cfg A 0 frames ({} : LoopState H G)).text_samples = 0
            ∧ (extract_features cfg A meta frames).text_present_ratio = 0)
      ∧ ((extract_features cfg A meta frames).frames_processed < cfg.yolo_frame_stride →
          (extract_features cfg A meta frames).people_detections = 0
            ∧ (extract_features cfg A meta frames).object_detections = 0) := by
  obtain ⟨-, -, hText, hYolo⟩ :=
    runLoop_inv cfg A frames 0 ({} : LoopState H G) (stateInv_init cfg)
  refine ⟨hText, ?_, ?_⟩
  · intro hp
    have hp' : (runLoop cfg A 0 frames ({} : LoopState H G)).processed_frames
        < cfg.text_sample_stride := hp
    have hzero : (runLoop cfg A 0 frames ({} : LoopState H G)).text_samples = 0 := by
      rw [hText]
      exact Nat.div_eq_of_lt hp'
    refine ⟨hzero, ?_⟩
    show (if (runLoop cfg A 0 frames ({} : LoopState H G)).text_samples ≠ 0
        then ((runLoop cfg A 0 frames ({} : LoopState H G)).text_positives : ℚ)
            / ((runLoop cfg A 0 frames ({} : LoopState H G)).text_samples : ℚ)
        else 0) = 0
    rw [if_neg (fun hne => hne hzero)]
  · intro hp
    have hp' : (runLoop cfg A 0 frames ({} : LoopState H G)).processed_frames
        < cfg.yolo_frame_stride := hp
    exact hYolo hp'

theorem sub_stride_warmup_spec_witness :
    0 < cfgW2.text_sample_stride ∧ 0 < cfgW2.yolo_frame_stride ∧
      (extract_features cfgW2 unitAnalyzers metaW framesW).frames_processed
        < cfgW2.text_sample_stride ∧
      (runLoop cfgW2 unitAnalyzers 0 framesW ({} : LoopState Unit Unit)).text_samples = 0 ∧
      (extract_features cfgW2 unitAnalyzers metaW framesW).text_present_ratio = 0 ∧
      (extract_features cfgW2 unitAnalyzers metaW framesW).people_detections = 0 :=
  ⟨by decide, by decide, by decide,
    ((sub_stride_warmup_spec cfgW2 unitAnalyzers metaW framesW (by decide) (by decide)).2.1
        (by decide)).1,
    ((sub_stride_warmup_spec cfgW2 unitAnalyzers metaW framesW (by decide) (by decide)).2.1
        (by decide)).2,
    ((sub_stride_warmup_spec cfgW2 unitAnalyzers metaW framesW (by decide) (by decide)).2.2
        (by decide)).1⟩

/-- C9 fails as stated: the dataclass constructor performs no
validation, so a configuration whose frame stride is zero is
constructible and violates the positivity invariant. -/
theorem config_positive_strides_counterexample :
    ¬ (∀ c : FeatureExtractionConfig,
        1 ≤ c.frame_stride ∧ 1 ≤ c.text_sample_stride ∧ 1 ≤ c.yolo_frame_stride) :=
  fun h => absurd (h zeroStrideConfig).1 (by decide)

/-- C9 (amended): the default configuration satisfies the positivity
invariant, and for any configuration actually satisfying it the three
stride moduli in the sampling loop are by nonzero divisors; the record
itself is immutable by construction. -/
theorem config_invariant_amended (c : FeatureExtractionConfig)
    (h1 : 1 ≤ c.frame_stride) (h2 : 1 ≤ c.text_sample_stride)
    (h3 : 1 ≤ c.yolo_frame_stride) :
    (1 ≤ ({} : FeatureExtractionConfig).frame_stride
        ∧ 1 ≤ ({} : FeatureExtractionConfig).text_sample_stride
        ∧ 1 ≤ ({} : FeatureExtractionConfig).yolo_frame_stride)
      ∧ (c.frame_stride ≠ 0 ∧ c.text_sample_stride ≠ 0 ∧ c.yolo_frame_stride ≠ 0) :=
  ⟨by decide, by omega⟩

theorem config_invariant_amended_witness :
    1 ≤ cfgW.frame_stride ∧ 1 ≤ cfgW.text_sample_stride ∧ 1 ≤ cfgW.yolo_frame_stride ∧
      (cfgW.frame_stride ≠ 0 ∧ cfgW.text_sample_stride ≠ 0 ∧ cfgW.yolo_frame_stride ≠ 0) :=
  ⟨by decide, by decide, by decide,
    (config_invariant_amended cfgW (by decide) (by decide) (by decide)).2⟩

/-- C2: the extract entry point raises `FileNotFoundError` iff the path
does not exist, raises `ValueError` iff the path exists but the
container cannot be opened, propagates any mid-stream decode or analyzer
fault (mapped to a generic 500 processing failure at the collaborator
boundary), and returns no report in any failure case. -/
theorem extract_error_taxonomy {F H G B : Type} (cfg : FeatureExtractionConfig)
    (A : AnalyzersE F H G B) (env : VideoEnv F) :
    ((extractRun cfg A env).result = Except.error PyError.fileNotFound
        ↔ env.pathExists = false)
      ∧ ((extractRun cfg A env).result = Except.error PyError.valueError
          ↔ (env.pathExists = true ∧ env.canOpen = false))
      ∧ (env.pathExists = true → env.canOpen = true →
          runLoopE cfg A 0 env.frames ({} : LoopState H G) = Except.error () →
          (extractRun cfg A env).result = Except.error PyError.analyzerFault
            ∧ extractStatus (extractRun cfg A env).result = 500)
      ∧ (∀ e, (extractRun cfg A env).result = Except.error e →
          ∀ r, (extractRun cfg A env).result ≠ Except.ok r) := by
  rcases hpe : env.pathExists with _ | _
  · simp [extractRun, hpe]
  · rcases hco : env.canOpen with _ | _
    · simp [extractRun, hpe, hco]
    · rcases hrun : runLoopE cfg A 0 env.frames ({} : LoopState H G) with e | s
      · simp [extractRun, hpe, hco, hrun, extractStatus]
      · simp [extractRun, hpe, hco, hrun]

theorem extract_error_taxonomy_witness :
    envFaultW.pathExists = true ∧ envFaultW.canOpen = true ∧
      runLoopE cfgW unitAnalyzersE 0 envFaultW.frames ({} : LoopState Unit Unit)
        = Except.error () ∧
      (extractRun cfgW unitAnalyzersE envFaultW).result
        = Except.error PyError.analyzerFault ∧
      extractStatus (extractRun cfgW unitAnalyzersE envFaultW).result = 500 :=
  ⟨rfl, rfl, rfl,
    ((extract_error_taxonomy cfgW unitAnalyzersE envFaultW).2.2.1 rfl rfl rfl).1,
    ((extract_error_taxonomy cfgW unitAnalyzersE envFaultW).2.2.1 rfl rfl rfl).2⟩

/-- C3: every execution that successfully opens the decode handle
releases it before returning, both on normal end-of-stream termination
and when a mid-stream decode or analyzer fault aborts the loop. -/
theorem decode_handle_released {F H G B : Type} (cfg : FeatureExtractionConfig)
    (A : AnalyzersE F H G B) (env : VideoEnv F)
    (h : (extractRun cfg A env).opened = true) :
    (extractRun cfg A env).released = true := by
  unfold extractRun at h ⊢
  by_cases h1 : ¬env.pathExists
  · rw [if_pos h1] at h
    exact (Bool.false_ne_true h).elim
  · rw [if_neg h1] at h ⊢
    by_cases h2 : ¬env.canOpen
    · rw [if_pos h2] at h
      exact (Bool.false_ne_true h).elim
    · rw [if_neg h2] at h ⊢
      rcases hrun : runLoopE cfg A 0 env.frames ({} : LoopState H G) with e | s <;>
        simp [hrun]

theorem decode_handle_released_witness :
    ((extractRun cfgW unitAnalyzersE envOkW).opened = true ∧
        (extractRun cfgW unitAnalyzersE envOkW).released = true) ∧
      ((extractRun cfgW unitAnalyzersE envFaultW).opened = true ∧
        (extractRun cfgW unitAnalyzersE envFaultW).released = true) :=
  ⟨⟨rfl, decode_handle_released cfgW unitAnalyzersE envOkW rfl⟩,
    ⟨rfl, decode_handle_released cfgW unitAnalyzersE envFaultW rfl⟩⟩

end VisionSense
